import Mathlib

/-!
Shallow embedding of the video-upload ingestion pipeline of the
learn-file-storage-s3-typescript repository.

Embedded source files:
* `src/api/videos.ts` — `handlerUploadVideo` (random-opaque key variant).
* `unnamed/part_001` — `handlerUploadVideo` (orientation-prefixed key variant,
  the full pipeline with probe and fast-start rewrite), together with
  `getVideoAspectRatio` and `processVideoForFastStart`.

Effectful calls (JWT validation, record-store access, file writes, child
processes, S3 upload) are modelled by an explicit environment of oracles, and
each handler returns its result together with the ordered trace of its
externally visible effects.
-/

namespace VideoUpload

/-- Orientation classification returned by `getVideoAspectRatio`
(the string literals `landscape | portrait | other` of the source). -/
inductive AspectRatio where
  | landscape
  | portrait
  | other
deriving DecidableEq, Repr

/-- The string value of a classification, as it appears in the derived key. -/
def AspectRatio.toStr : AspectRatio → String
  | .landscape => "landscape"
  | .portrait => "portrait"
  | .other => "other"

/-- Embedding of `if (Math.abs(ratio - 16/9) < 0.1) return` landscape`; if
(Math.abs(ratio - 9/16) < 0.1) return` portrait`; return` other`;` — the
classification tail of `getVideoAspectRatio`, over exact rationals. -/
def classifyRatio (ratio : ℚ) : AspectRatio :=
  if |ratio - 16/9| < 1/10 then .landscape
  else if |ratio - 9/16| < 1/10 then .portrait
  else .other

/-- Ratio `width / height` guarded against a zero denominator: the source computes
an IEEE double, which for `height = 0` is non-finite (±Infinity or NaN), so we
track that error branch explicitly as `none`. -/
def ratioChecked (width height : ℚ) : Option ℚ :=
  if height = 0 then none else some (width / height)

/-- Classification from raw width/height. When the division is non-finite
(`height = 0`), both `Math.abs(...) < 0.1` comparisons in the source are false
(comparisons against NaN or ±Infinity), so the result is `other`. -/
def classifyDims (width height : ℚ) : AspectRatio :=
  match ratioChecked width height with
  | none => .other
  | some r => classifyRatio r

/-- Outcome of the `ffprobe` child process as observed by
`getVideoAspectRatio`: exit status, the parsed `streams` array (first video
stream's width and height per entry), and captured stderr text. -/
structure ProbeOutput where
  exitCode : Int
  streams : List (ℚ × ℚ)
  stderrText : String

/-- Embedding of `getVideoAspectRatio` after the `ffprobe` spawn: non-zero exit is an
error, an empty `streams` array is an error, otherwise the first stream's
width and height are classified. -/
def getVideoAspectRatio (probe : ProbeOutput) : Except String AspectRatio :=
  if probe.exitCode ≠ 0 then
    .error ("ffprobe error: " ++ probe.stderrText)
  else
    match probe.streams with
    | [] => .error "No video streams found"
    | (width, height) :: _ => .ok (classifyDims width height)

/-- JavaScript `s.split(".")[0]`: the prefix of `s` before the first `.`
(the whole of `s` when it has no `.`). -/
def splitFirstDot (s : String) : String :=
  String.mk (s.toList.takeWhile (fun c => c ≠ '.'))

/-- The output path computed by `processVideoForFastStart`:
`const [ key ] = inputFilePath.split("."); outputFilePath =
`$\x7bkey\x7d.processed.mp4``. -/
def fastStartOutputPath (inputFilePath : String) : String :=
  splitFirstDot inputFilePath ++ ".processed.mp4"

/-- Embedding of `processVideoForFastStart` after the `ffmpeg` spawn: non-zero exit is an
error carrying the tool's stderr, otherwise the derived output path is
returned. -/
def processVideoForFastStart (inputFilePath : String) (ffmpegExit : Int)
    (ffmpegStderr : String) : Except String String :=
  if ffmpegExit ≠ 0 then .error ("FFmpeg error: " ++ ffmpegStderr)
  else .ok (fastStartOutputPath inputFilePath)

/-- The video record row (`id`, `userID`, `thumbnailURL`, `videoURL`, plus a
stand-in for the unspecified descriptive fields). -/
structure VideoRecord where
  id : String
  userID : String
  thumbnailURL : Option String
  videoURL : Option String
  title : String
deriving DecidableEq, Repr

/-- The `video` form-data entry when it is a `File`: its `size` and declared
content `type`. -/
structure VideoFile where
  size : Nat
  mediaType : String
deriving DecidableEq, Repr

/-- The request data consumed by the handler: the `videoId` route parameter,
the bearer token, and the `video` form field (present as a `File` or not). -/
structure UploadRequest where
  videoId : Option String
  token : String
  videoFile : Option VideoFile

/-- Error taxonomy of the handler (`errors.ts` classes by HTTP meaning). -/
inductive ApiError where
  | badRequest (msg : String)
  | unauthorized (msg : String)
  | notFound (msg : String)
  | forbidden (msg : String)
  | internal (msg : String)
deriving DecidableEq, Repr

/-- One externally visible effect of the handler, in the order performed:
`staged` = the `Bun.write` call to the temp path, `probed` = the `ffprobe`
spawn on a path, `rewritten` = the `ffmpeg` spawn from input to output path,
`uploadCalled` = the `uploadVideoToS3` call with its key and local path,
`dbUpdated` = the `updateVideo` record-store call with the record handed over,
`removed` = an `rm(path, force)` call. -/
inductive Event where
  | staged (path : String)
  | probed (path : String)
  | rewritten (input output : String)
  | uploadCalled (key : String) (path : String)
  | dbUpdated (rec : VideoRecord)
  | removed (path : String)
deriving DecidableEq, Repr

/-- Oracles for every effect the handler awaits, plus the configuration it
reads (`cfg.jwtSecret` is folded into `validateJWT`). -/
structure Env where
  validateJWT : String → Option String
  getVideo : String → Option VideoRecord
  writeOk : Bool
  probe : ProbeOutput
  ffmpegExit : Int
  ffmpegStderr : String
  uploadOk : Bool
  updateOk : Bool
  randBytes : List Nat
  s3Bucket : String
  s3Region : String

/-- Constant `MAX_UPLOAD_SIZE = 1 << 30` (exactly 1 GiB). -/
def MAX_UPLOAD_SIZE : Nat := 2 ^ 30

/-- Temp path `path.join("/tmp", videoId + ".mp4")`. -/
def tempFilePathFor (videoId : String) : String :=
  "/tmp/" ++ videoId ++ ".mp4"

/-- The public URL
`https://$\x7bcfg.s3Bucket\x7d.s3.$\x7bcfg.s3Region\x7d.amazonaws.com/$\x7bkey\x7d`. -/
def publicUrl (bucket region key : String) : String :=
  "https://" ++ bucket ++ ".s3." ++ region ++ ".amazonaws.com/" ++ key

/-- The orientation-prefixed pipeline handler `handlerUploadVideo` of
`unnamed/part_001`, returning its result (HTTP status and response record on
success, thrown error otherwise) together with the ordered trace of effects.
Each effect event is appended at the point of the corresponding call; a
throw propagates immediately, so events after the failing call are absent. -/
def handlerUploadVideo (env : Env) (req : UploadRequest) :
    Except ApiError (Nat × VideoRecord) × List Event :=
  match req.videoId with
  | none => (.error (.badRequest "Invalid video ID"), [])
  | some videoId =>
    match env.validateJWT req.token with
    | none => (.error (.unauthorized "Invalid token"), [])
    | some userID =>
      match env.getVideo videoId with
      | none => (.error (.notFound "Video not found"), [])
      | some video =>
        if video.userID ≠ userID then
          (.error (.forbidden "Forbidden access to the video"), [])
        else
          match req.videoFile with
          | none => (.error (.badRequest "Video file missing"), [])
          | some videoFile =>
            if videoFile.size > MAX_UPLOAD_SIZE then
              (.error (.badRequest
                "Video file exceeds the maximum allowed size of 1GB"), [])
            else if videoFile.mediaType ≠ "video/mp4" then
              (.error (.badRequest "Invalid file type. Only MP4 allowed."), [])
            else
              let tempFilePath := tempFilePathFor videoId
              let t1 := [Event.staged tempFilePath]
              if ¬ env.writeOk then (.error (.internal "write failed"), t1)
              else
                let t2 := t1 ++ [Event.probed tempFilePath]
                match getVideoAspectRatio env.probe with
                | .error e => (.error (.internal e), t2)
                | .ok aspectRatio =>
                  let t3 := t2 ++ [Event.rewritten tempFilePath
                    (fastStartOutputPath tempFilePath)]
                  match processVideoForFastStart tempFilePath env.ffmpegExit
                      env.ffmpegStderr with
                  | .error e => (.error (.internal e), t3)
                  | .ok processedFilePath =>
                    let key := aspectRatio.toStr ++ "/" ++ videoId ++ ".mp4"
                    let t4 := t3 ++ [Event.uploadCalled key processedFilePath]
                    if ¬ env.uploadOk then
                      (.error (.internal "upload failed"), t4)
                    else
                      let videoUrl :=
                        publicUrl env.s3Bucket env.s3Region key
                      let video' := { video with videoURL := some videoUrl }
                      let t5 := t4 ++ [Event.dbUpdated video']
                      if ¬ env.updateOk then
                        (.error (.internal "update failed"), t5)
                      else
                        let t6 := t5 ++ [Event.removed tempFilePath,
                          Event.removed (tempFilePath ++ ".processed.mp4")]
                        (.ok (200, video'), t6)

/-- The url-safe base64 alphabet (RFC 4648 §5), used by Node's
`Buffer.toString("base64url")`. -/
def base64urlAlphabet : List Char :=
  "ABCDEFGHIJKLMNOPQRSTUVWXYZabcdefghijklmnopqrstuvwxyz0123456789-_".toList

/-- The alphabet character at index `n` (indices 0–63). -/
def b64Char (n : Nat) : Char := base64urlAlphabet.getD n 'A'

/-- Url-safe base64 encoding of a byte list, unpadded, as produced by Node's
`Buffer.toString("base64url")`: groups of three bytes map to four characters,
with two-character and three-character tails for one and two trailing bytes. -/
def base64urlEncode : List Nat → List Char
  | [] => []
  | [b1] => [b64Char (b1 / 4), b64Char (b1 % 4 * 16)]
  | [b1, b2] =>
      [b64Char (b1 / 4), b64Char (b1 % 4 * 16 + b2 / 16),
       b64Char (b2 % 16 * 4)]
  | b1 :: b2 :: b3 :: rest =>
      b64Char (b1 / 4) :: b64Char (b1 % 4 * 16 + b2 / 16) ::
      b64Char (b2 % 16 * 4 + b3 / 64) :: b64Char (b3 % 64) ::
      base64urlEncode rest

/-- Value of `randomBytes(32).toString("base64url")` for a given byte list. -/
def base64url (bytes : List Nat) : String := String.mk (base64urlEncode bytes)

/-- Modelled from the spec: `mediaTypeToExt` lives in `src/api/assets.ts`,
which is not among the provided sources; per §4.5 it "must map
`video/mp4 → .mp4` and reject/`BadRequest` any other declared media type". -/
def mediaTypeToExt (mediaType : String) : Except ApiError String :=
  if mediaType = "video/mp4" then .ok ".mp4"
  else .error (.badRequest "Unsupported media type")

/-- The random-opaque-key variant `handlerUploadVideo` of
`src/api/videos.ts`: same preconditions, no probe and no rewrite; the S3 key
is `randomBytes(32).toString("base64url")` plus the extension for the declared
media type, and only the staged temp file is removed at the end. -/
def handlerUploadVideoRandom (env : Env) (req : UploadRequest) :
    Except ApiError (Nat × VideoRecord) × List Event :=
  match req.videoId with
  | none => (.error (.badRequest "Invalid video ID"), [])
  | some videoId =>
    match env.validateJWT req.token with
    | none => (.error (.unauthorized "Invalid token"), [])
    | some userID =>
      match env.getVideo videoId with
      | none => (.error (.notFound "Video not found"), [])
      | some video =>
        if video.userID ≠ userID then
          (.error (.forbidden "Forbidden access to the video"), [])
        else
          match req.videoFile with
          | none => (.error (.badRequest "Video file missing"), [])
          | some videoFile =>
            if videoFile.size > MAX_UPLOAD_SIZE then
              (.error (.badRequest
                "Video file exceeds the maximum allowed size of 1GB"), [])
            else if videoFile.mediaType ≠ "video/mp4" then
              (.error (.badRequest "Invalid file type. Only MP4 allowed."), [])
            else
              match mediaTypeToExt videoFile.mediaType with
              | .error e => (.error e, [])
              | .ok ext =>
                let filename := base64url env.randBytes ++ ext
                let tempFilePath := tempFilePathFor videoId
                let t1 := [Event.staged tempFilePath]
                if ¬ env.writeOk then (.error (.internal "write failed"), t1)
                else
                  let t2 := t1 ++ [Event.uploadCalled filename tempFilePath]
                  if ¬ env.uploadOk then
                    (.error (.internal "upload failed"), t2)
                  else
                    let videoUrl :=
                      publicUrl env.s3Bucket env.s3Region filename
                    let video' := { video with videoURL := some videoUrl }
                    let t3 := t2 ++ [Event.dbUpdated video']
                    if ¬ env.updateOk then
                      (.error (.internal "update failed"), t3)
                    else
                      let t4 := t3 ++ [Event.removed tempFilePath]
                      (.ok (200, video'), t4)

/-- The storage key of the orientation-prefixed policy:
`$\x7baspectRatio\x7d/$\x7bvideoId\x7d.mp4`. -/
def pipeKey (geo : AspectRatio) (videoId : String) : String :=
  geo.toStr ++ "/" ++ videoId ++ ".mp4"

/-- The fetched record with its `videoURL` field set to the public URL of
`key` — the record handed to `updateVideo`. -/
def committedRecord (bucket region key : String) (video : VideoRecord) :
    VideoRecord :=
  { video with videoURL := some (publicUrl bucket region key) }

/-- The complete effect trace of a successful run of the pipeline handler of
`unnamed/part_001`: stage → probe → rewrite → upload → commit, then the two
cleanup removals. Every actual trace of `handlerUploadVideo` is a prefix of
this list (the prefix of length 6 never occurs because the two `rm` calls are
issued together). -/
def fullSuccessTrace (bucket region videoId : String) (geo : AspectRatio)
    (video : VideoRecord) : List Event :=
  [Event.staged (tempFilePathFor videoId),
   Event.probed (tempFilePathFor videoId),
   Event.rewritten (tempFilePathFor videoId)
     (fastStartOutputPath (tempFilePathFor videoId)),
   Event.uploadCalled (pipeKey geo videoId)
     (fastStartOutputPath (tempFilePathFor videoId)),
   Event.dbUpdated (committedRecord bucket region (pipeKey geo videoId) video),
   Event.removed (tempFilePathFor videoId),
   Event.removed (tempFilePathFor videoId ++ ".processed.mp4")]

/-- The five pipeline-stage events of the success trace, without the cleanup
removals: staging, probe, rewrite, upload, commit — in the source's order,
each consuming the artifact produced by the previous stage. -/
def stageTrace (bucket region videoId : String) (geo : AspectRatio)
    (video : VideoRecord) : List Event :=
  (fullSuccessTrace bucket region videoId geo video).take 5

/-- Whether an event is a cleanup removal. -/
def Event.isRemove : Event → Bool
  | .removed _ => true
  | _ => false

/-- A trace restricted to its pipeline-stage events (cleanup removals
dropped). -/
def stageEvents (tr : List Event) : List Event :=
  tr.filter (fun e => !e.isRemove)

/-- The complete effect trace of a successful run of the random-opaque-key
handler of `src/api/videos.ts`: stage → upload → commit → remove. -/
def fullSuccessTraceRandom (bucket region videoId : String) (bytes : List Nat)
    (video : VideoRecord) : List Event :=
  [Event.staged (tempFilePathFor videoId),
   Event.uploadCalled (base64url bytes ++ ".mp4") (tempFilePathFor videoId),
   Event.dbUpdated
     (committedRecord bucket region (base64url bytes ++ ".mp4") video),
   Event.removed (tempFilePathFor videoId)]

/-! Concrete fixtures used by witnesses and counterexamples. -/

/-- A stored record owned by user `u1`, playback URL still null. -/
def recV : VideoRecord :=
  { id := "v1", userID := "u1", thumbnailURL := some "th",
    videoURL := none, title := "t" }

/-- An `ffprobe` outcome reporting one 1920×1080 stream. -/
def probeOk : ProbeOutput := ⟨0, [(1920, 1080)], ""⟩

/-- An environment in which every effect succeeds: token `tok` belongs to
`u1`, the store holds `recV` under `v1`, the probe reports 1920×1080. -/
def envOk : Env :=
  { validateJWT := fun t => if t = "tok" then some "u1" else none,
    getVideo := fun i => if i = "v1" then some recV else none,
    writeOk := true, probe := probeOk, ffmpegExit := 0, ffmpegStderr := "",
    uploadOk := true, updateOk := true, randBytes := List.replicate 32 0,
    s3Bucket := "b", s3Region := "r" }

/-- A well-formed owner request for video `v1` with a small `video/mp4`
file. -/
def reqOk : UploadRequest := ⟨some "v1", "tok", some ⟨100, "video/mp4"⟩⟩

/-- Fixture `envOk` with `ffprobe` exiting non-zero. -/
def envProbeFail : Env := { envOk with probe := ⟨1, [], "boom"⟩ }

/-- Fixture `envOk` with the S3 upload failing. -/
def envUploadFail : Env := { envOk with uploadOk := false }

/-- The record committed by a successful run of the pipeline handler on
`envOk`/`reqOk`. -/
def recCommitted : VideoRecord :=
  committedRecord "b" "r" "landscape/v1.mp4" recV

/-- Fixture `envOk` but the token belongs to user `u2`, who does not own `v1`. -/
def envOther : Env :=
  { envOk with validateJWT := fun t => if t = "tok" then some "u2" else none }

/-- An `ffprobe` outcome reporting a degenerate stream of height 0. -/
def probeZeroH : ProbeOutput := ⟨0, [(4, 0)], ""⟩

/-! Helper lemmas. -/

/-- A successful rewrite returns exactly the derived output path. -/
lemma processVideoForFastStart_ok {s : String} {e : Int} {t out : String}
    (h : processVideoForFastStart s e t = .ok out) :
    out = fastStartOutputPath s := by
  unfold processVideoForFastStart at h
  split at h
  · exact absurd h (by simp)
  · simpa using h.symm

/-- Master shape lemma for the pipeline handler of `unnamed/part_001`: either
the run fails before staging with an empty trace, or the record under the
request's video id exists and the trace is the length-`n` prefix of the
canonical success trace, with `n = 7` exactly on success, the probe
classification fixed from stage 4 on, and the upload known successful from
stage 5 on. -/
lemma handler_shape (env : Env) (req : UploadRequest) (res : Except ApiError (Nat × VideoRecord)) (tr : List Event) (hE : handlerUploadVideo env req = (res, tr)) :
    (tr = [] ∧ ∃ e, res = .error e) ∨
    ∃ videoId video geo n,
      req.videoId = some videoId ∧
      env.getVideo videoId = some video ∧
      1 ≤ n ∧ n ≤ 7 ∧ n ≠ 6 ∧
      tr = (fullSuccessTrace env.s3Bucket env.s3Region videoId geo video).take n ∧
      (4 ≤ n → getVideoAspectRatio env.probe = .ok geo) ∧
      (5 ≤ n → env.uploadOk = true) ∧
      (∀ v, res = .ok v → n = 7 ∧
        v = (200, committedRecord env.s3Bucket env.s3Region
          (pipeKey geo videoId) video)) := by
  simp only [handlerUploadVideo] at hE
  split at hE
  · injection hE with h1 h2; subst h1; subst h2
    exact Or.inl ⟨rfl, _, rfl⟩
  rename_i videoId hvid
  split at hE
  · injection hE with h1 h2; subst h1; subst h2
    exact Or.inl ⟨rfl, _, rfl⟩
  rename_i userID hjwt
  split at hE
  · injection hE with h1 h2; subst h1; subst h2
    exact Or.inl ⟨rfl, _, rfl⟩
  rename_i video hgv
  split at hE
  · injection hE with h1 h2; subst h1; subst h2
    exact Or.inl ⟨rfl, _, rfl⟩
  rename_i hown
  split at hE
  · injection hE with h1 h2; subst h1; subst h2
    exact Or.inl ⟨rfl, _, rfl⟩
  rename_i videoFile hfile
  split at hE
  · injection hE with h1 h2; subst h1; subst h2
    exact Or.inl ⟨rfl, _, rfl⟩
  rename_i hsize
  split at hE
  · injection hE with h1 h2; subst h1; subst h2
    exact Or.inl ⟨rfl, _, rfl⟩
  rename_i hmt
  split at hE
  · -- Bun.write failed: trace is the staging call alone.
    rename_i hw
    injection hE with h1 h2; subst h1; subst h2
    refine Or.inr ⟨videoId, video, .other, 1, hvid, hgv, by decide, by decide,
      by decide, rfl, ?_, ?_, ?_⟩
    · intro h; exact absurd h (by decide)
    · intro h; exact absurd h (by decide)
    · intro v hv; exact absurd hv (by simp)
  rename_i hw
  split at hE
  · -- ffprobe failed.
    rename_i e hpr
    injection hE with h1 h2; subst h1; subst h2
    refine Or.inr ⟨videoId, video, .other, 2, hvid, hgv, by decide, by decide,
      by decide, rfl, ?_, ?_, ?_⟩
    · intro h; exact absurd h (by decide)
    · intro h; exact absurd h (by decide)
    · intro v hv; exact absurd hv (by simp)
  rename_i aspectRatio hpr
  split at hE
  · -- ffmpeg failed.
    rename_i e hff
    injection hE with h1 h2; subst h1; subst h2
    refine Or.inr ⟨videoId, video, aspectRatio, 3, hvid, hgv, by decide,
      by decide, by decide, rfl, ?_, ?_, ?_⟩
    · intro h; exact absurd h (by decide)
    · intro h; exact absurd h (by decide)
    · intro v hv; exact absurd hv (by simp)
  rename_i processedFilePath hff
  obtain rfl : processedFilePath = fastStartOutputPath (tempFilePathFor videoId) :=
    processVideoForFastStart_ok hff
  split at hE
  · -- S3 upload failed.
    rename_i hup
    injection hE with h1 h2; subst h1; subst h2
    refine Or.inr ⟨videoId, video, aspectRatio, 4, hvid, hgv, by decide,
      by decide, by decide, ?_, ?_, ?_, ?_⟩
    · simp [fullSuccessTrace, pipeKey]
    · intro _; exact hpr
    · intro h; exact absurd h (by decide)
    · intro v hv; exact absurd hv (by simp)
  rename_i hup
  split at hE
  · -- record-store update failed after commit call.
    rename_i hupd
    injection hE with h1 h2; subst h1; subst h2
    refine Or.inr ⟨videoId, video, aspectRatio, 5, hvid, hgv, by decide,
      by decide, by decide, ?_, ?_, ?_, ?_⟩
    · simp [fullSuccessTrace, pipeKey, committedRecord]
    · intro _; exact hpr
    · intro _; exact not_not.mp hup
    · intro v hv; exact absurd hv (by simp)
  rename_i hupd
  -- full success.
  injection hE with h1 h2; subst h1; subst h2
  refine Or.inr ⟨videoId, video, aspectRatio, 7, hvid, hgv, by decide,
    by decide, by decide, ?_, ?_, ?_, ?_⟩
  · simp [fullSuccessTrace, pipeKey, committedRecord]
  · intro _; exact hpr
  · intro _; exact not_not.mp hup
  · intro v hv
    refine ⟨rfl, ?_⟩
    injection hv with h; exact h.symm.trans (by simp [committedRecord, pipeKey])

/-- Master shape lemma for the random-opaque-key handler of
`src/api/videos.ts`: either the run fails before staging with an empty trace,
or the record exists and the trace is the length-`n` prefix of the canonical
success trace, with `n = 4` exactly on success and the upload known
successful from stage 3 on. -/
lemma handlerRandom_shape (env : Env) (req : UploadRequest) (res : Except ApiError (Nat × VideoRecord)) (tr : List Event) (hE : handlerUploadVideoRandom env req = (res, tr)) :
    (tr = [] ∧ ∃ e, res = .error e) ∨
    ∃ videoId video n,
      req.videoId = some videoId ∧
      env.getVideo videoId = some video ∧
      1 ≤ n ∧ n ≤ 4 ∧
      tr = (fullSuccessTraceRandom env.s3Bucket env.s3Region videoId
        env.randBytes video).take n ∧
      (3 ≤ n → env.uploadOk = true) ∧
      (∀ v, res = .ok v → n = 4 ∧
        v = (200, committedRecord env.s3Bucket env.s3Region
          (base64url env.randBytes ++ ".mp4") video)) := by
  simp only [handlerUploadVideoRandom] at hE
  split at hE
  · injection hE with h1 h2; subst h1; subst h2
    exact Or.inl ⟨rfl, _, rfl⟩
  rename_i videoId hvid
  split at hE
  · injection hE with h1 h2; subst h1; subst h2
    exact Or.inl ⟨rfl, _, rfl⟩
  rename_i userID hjwt
  split at hE
  · injection hE with h1 h2; subst h1; subst h2
    exact Or.inl ⟨rfl, _, rfl⟩
  rename_i video hgv
  split at hE
  · injection hE with h1 h2; subst h1; subst h2
    exact Or.inl ⟨rfl, _, rfl⟩
  rename_i hown
  split at hE
  · injection hE with h1 h2; subst h1; subst h2
    exact Or.inl ⟨rfl, _, rfl⟩
  rename_i videoFile hfile
  split at hE
  · injection hE with h1 h2; subst h1; subst h2
    exact Or.inl ⟨rfl, _, rfl⟩
  rename_i hsize
  split at hE
  · injection hE with h1 h2; subst h1; subst h2
    exact Or.inl ⟨rfl, _, rfl⟩
  rename_i hmt
  split at hE
  · injection hE with h1 h2; subst h1; subst h2
    exact Or.inl ⟨rfl, _, rfl⟩
  rename_i ext hext
  obtain rfl : ext = ".mp4" := by
    rw [not_not.mp hmt] at hext
    simpa [mediaTypeToExt] using hext.symm
  split at hE
  · -- Bun.write failed.
    rename_i hw
    injection hE with h1 h2; subst h1; subst h2
    refine Or.inr ⟨videoId, video, 1, hvid, hgv, by decide, by decide,
      rfl, ?_, ?_⟩
    · intro h; exact absurd h (by decide)
    · intro v hv; exact absurd hv (by simp)
  rename_i hw
  split at hE
  · -- S3 upload failed.
    rename_i hup
    injection hE with h1 h2; subst h1; subst h2
    refine Or.inr ⟨videoId, video, 2, hvid, hgv, by decide, by decide,
      ?_, ?_, ?_⟩
    · simp [fullSuccessTraceRandom]
    · intro h; exact absurd h (by decide)
    · intro v hv; exact absurd hv (by simp)
  rename_i hup
  split at hE
  · -- record-store update failed after commit call.
    rename_i hupd
    injection hE with h1 h2; subst h1; subst h2
    refine Or.inr ⟨videoId, video, 3, hvid, hgv, by decide, by decide,
      ?_, ?_, ?_⟩
    · simp [fullSuccessTraceRandom, committedRecord]
    · intro _; exact not_not.mp hup
    · intro v hv; exact absurd hv (by simp)
  rename_i hupd
  -- full success.
  injection hE with h1 h2; subst h1; subst h2
  refine Or.inr ⟨videoId, video, 4, hvid, hgv, by decide, by decide,
    ?_, ?_, ?_⟩
  · simp [fullSuccessTraceRandom, committedRecord]
  · intro _; exact not_not.mp hup
  · intro v hv
    refine ⟨rfl, ?_⟩
    injection hv with h; exact h.symm.trans (by simp [committedRecord])

/-- A commit event occurs in a prefix of the pipeline success trace only from
length 5 on, and its record is the committed record. -/
lemma mem_dbUpdated_full {b rg vid : String} {geo : AspectRatio} {video r : VideoRecord} {n : ℕ} (h7 : n ≤ 7) (h : Event.dbUpdated r ∈ (fullSuccessTrace b rg vid geo video).take n) :
    5 ≤ n ∧ r = committedRecord b rg (pipeKey geo vid) video := by
  interval_cases n <;> simp_all [fullSuccessTrace]

/-- An upload event occurs in a prefix of the pipeline success trace only
from length 4 on, with the orientation-prefixed key and the rewriter's
derived output path. -/
lemma mem_uploadCalled_full {b rg vid : String} {geo : AspectRatio} {video : VideoRecord} {key path : String} {n : ℕ} (h7 : n ≤ 7) (h : Event.uploadCalled key path ∈ (fullSuccessTrace b rg vid geo video).take n) :
    4 ≤ n ∧ key = pipeKey geo vid ∧
      path = fastStartOutputPath (tempFilePathFor vid) := by
  interval_cases n <;> simp_all [fullSuccessTrace]

/-- In prefixes of length 5 or more, the upload event sits at index 3 and the
commit event at index 4. -/
lemma getElem_full_upload_commit {b rg vid : String} {geo : AspectRatio} {video : VideoRecord} {n : ℕ} (h5 : 5 ≤ n) (h7 : n ≤ 7) :
    ((fullSuccessTrace b rg vid geo video).take n)[3]? =
      some (Event.uploadCalled (pipeKey geo vid)
        (fastStartOutputPath (tempFilePathFor vid))) ∧
    ((fullSuccessTrace b rg vid geo video).take n)[4]? =
      some (Event.dbUpdated (committedRecord b rg (pipeKey geo vid) video)) := by
  interval_cases n <;> simp [fullSuccessTrace]

/-- A commit event occurs in a prefix of the random-key success trace only
from length 3 on, and its record is the committed record. -/
lemma mem_dbUpdated_fullRandom {b rg vid : String} {bytes : List Nat} {video r : VideoRecord} {n : ℕ} (h4 : n ≤ 4) (h : Event.dbUpdated r ∈ (fullSuccessTraceRandom b rg vid bytes video).take n) :
    3 ≤ n ∧ r = committedRecord b rg (base64url bytes ++ ".mp4") video := by
  interval_cases n <;> simp_all [fullSuccessTraceRandom]

/-- An upload event occurs in a prefix of the random-key success trace only
from length 2 on, with the random opaque key. -/
lemma mem_uploadCalled_fullRandom {b rg vid : String} {bytes : List Nat} {video : VideoRecord} {key path : String} {n : ℕ} (h4 : n ≤ 4) (h : Event.uploadCalled key path ∈ (fullSuccessTraceRandom b rg vid bytes video).take n) :
    2 ≤ n ∧ key = base64url bytes ++ ".mp4" ∧ path = tempFilePathFor vid := by
  interval_cases n <;> simp_all [fullSuccessTraceRandom]

/-- The probe fixture classifies as landscape (1920/1080 = 16/9). -/
lemma probeOk_eval : getVideoAspectRatio probeOk = .ok .landscape := by
  simp [getVideoAspectRatio, probeOk, classifyDims, ratioChecked,
    classifyRatio]
  norm_num

/-- Evaluation of the pipeline handler on the all-success fixtures. -/
lemma handlerOk_eval : handlerUploadVideo envOk reqOk =
    (.ok (200, recCommitted),
      fullSuccessTrace "b" "r" "v1" AspectRatio.landscape recV) := by
  simp [handlerUploadVideo, envOk, reqOk, recV, probeOk_eval, MAX_UPLOAD_SIZE,
    processVideoForFastStart, fullSuccessTrace, fastStartOutputPath,
    splitFirstDot, tempFilePathFor, pipeKey, committedRecord, recCommitted,
    publicUrl, AspectRatio.toStr]

/-- C1: in both handler variants, the record handed to the record store's
update operation is handed over only after the `uploadVideoToS3` call for the
rewritten payload has returned success — the upload event strictly precedes
the commit event in the trace and the committed playback URL is the public
URL of the uploaded key — and on any failure before or during the upload the
record store receives no update call at all, so the stored record (and its
playback URL) is unchanged. -/
theorem commit_only_after_upload (env : Env) (req : UploadRequest) :
    (∀ r : VideoRecord, Event.dbUpdated r ∈ (handlerUploadVideo env req).2 →
      env.uploadOk = true ∧
      ∃ (i j : ℕ) (key path : String), i < j ∧
        ((handlerUploadVideo env req).2)[i]? =
          some (Event.uploadCalled key path) ∧
        ((handlerUploadVideo env req).2)[j]? = some (Event.dbUpdated r) ∧
        r.videoURL = some (publicUrl env.s3Bucket env.s3Region key)) ∧
    (env.uploadOk = false →
      (∀ r : VideoRecord, Event.dbUpdated r ∉ (handlerUploadVideo env req).2) ∧
      (∀ r : VideoRecord,
        Event.dbUpdated r ∉ (handlerUploadVideoRandom env req).2)) := by
  rcases hE : handlerUploadVideo env req with ⟨res, tr⟩
  rcases hER : handlerUploadVideoRandom env req with ⟨resR, trR⟩
  simp only [hE, hER]
  constructor
  · intro r hr
    rcases handler_shape env req res tr hE with ⟨rfl, -⟩ |
      ⟨vid, video, geo, n, hvid, hgv, h1, h7, h6, rfl, hprobe, hup, hok⟩
    · simp at hr
    · obtain ⟨h5, rfl⟩ := mem_dbUpdated_full h7 hr
      exact ⟨hup h5, 3, 4, pipeKey geo vid,
        fastStartOutputPath (tempFilePathFor vid), by decide,
        (getElem_full_upload_commit h5 h7).1,
        (getElem_full_upload_commit h5 h7).2, rfl⟩
  · intro hup0
    constructor
    · intro r hr
      rcases handler_shape env req res tr hE with ⟨rfl, -⟩ |
        ⟨vid, video, geo, n, hvid, hgv, h1, h7, h6, rfl, hprobe, hup, hok⟩
      · simp at hr
      · obtain ⟨h5, -⟩ := mem_dbUpdated_full h7 hr
        exact Bool.noConfusion ((hup h5).symm.trans hup0)
    · intro r hr
      rcases handlerRandom_shape env req resR trR hER with ⟨rfl, -⟩ |
        ⟨vid, video, n, hvid, hgv, h1, h4, rfl, hup, hok⟩
      · simp at hr
      · obtain ⟨h3, -⟩ := mem_dbUpdated_fullRandom h4 hr
        exact Bool.noConfusion ((hup h3).symm.trans hup0)

/-- Witness for C1: on the all-success environment, the commit for the
landscape 1920×1080 upload of video `v1` occurs, and the theorem places the
upload call strictly before it. -/
theorem commit_only_after_upload_witness :
    Event.dbUpdated recCommitted ∈ (handlerUploadVideo envOk reqOk).2 ∧
    (envOk.uploadOk = true ∧
      ∃ (i j : ℕ) (key path : String), i < j ∧
        ((handlerUploadVideo envOk reqOk).2)[i]? =
          some (Event.uploadCalled key path) ∧
        ((handlerUploadVideo envOk reqOk).2)[j]? =
          some (Event.dbUpdated recCommitted) ∧
        recCommitted.videoURL =
          some (publicUrl envOk.s3Bucket envOk.s3Region key)) :=
  ⟨by rw [handlerOk_eval]; decide,
    (commit_only_after_upload envOk reqOk).1 recCommitted
      (by rw [handlerOk_eval]; decide)⟩

/-- C7: within one request, the pipeline handler performs exactly the stage
transitions Staged → Probed → Rewritten → Uploaded → Committed in that total
order: its trace of stage events (cleanup removals aside) is a prefix of the
five-stage canonical trace — in which each stage consumes the previous
stage's artifact: the probe and the rewrite run on the staged temp path, the
upload sends the rewriter's output, and the commit stores the uploaded key's
URL — a failure at any stage truncates the trace at that stage, and a
successful response is reached exactly when all five stages ran. -/
theorem pipeline_stage_order (env : Env) (req : UploadRequest) :
    ∃ (videoId : String) (video : VideoRecord) (geo : AspectRatio) (n : ℕ), n ≤ 5 ∧
      stageEvents (handlerUploadVideo env req).2 =
        (stageTrace env.s3Bucket env.s3Region videoId geo video).take n ∧
      (1 ≤ n → req.videoId = some videoId ∧
        env.getVideo videoId = some video) ∧
      (4 ≤ n → getVideoAspectRatio env.probe = .ok geo) ∧
      (∀ v, (handlerUploadVideo env req).1 = .ok v → n = 5) := by
  rcases hE : handlerUploadVideo env req with ⟨res, tr⟩
  simp only [hE]
  rcases handler_shape env req res tr hE with ⟨rfl, e, he⟩ |
    ⟨vid, video, geo, n, hvid, hgv, h1, h7, h6, rfl, hprobe, hup, hok⟩
  · refine ⟨"", ⟨"", "", none, none, ""⟩, .other, 0, by decide,
      by simp [stageEvents], ?_, ?_, ?_⟩
    · intro h; exact absurd h (by decide)
    · intro h; exact absurd h (by decide)
    · intro v hv; rw [he] at hv; exact absurd hv (by simp)
  · refine ⟨vid, video, geo, min n 5, by omega, ?_, ?_, ?_, ?_⟩
    · have hcases : n = 1 ∨ n = 2 ∨ n = 3 ∨ n = 4 ∨ n = 5 ∨ n = 7 := by omega
      rcases hcases with rfl | rfl | rfl | rfl | rfl | rfl <;>
        simp [fullSuccessTrace, stageTrace, stageEvents, Event.isRemove]
    · intro _; exact ⟨hvid, hgv⟩
    · intro h4; exact hprobe (by omega)
    · intro v hv; have := (hok v hv).1; omega

/-- Witness for C7: instantiation on the all-success fixtures. -/
theorem pipeline_stage_order_witness :
    ∃ (videoId : String) (video : VideoRecord) (geo : AspectRatio) (n : ℕ), n ≤ 5 ∧
      stageEvents (handlerUploadVideo envOk reqOk).2 =
        (stageTrace envOk.s3Bucket envOk.s3Region videoId geo video).take n ∧
      (1 ≤ n → reqOk.videoId = some videoId ∧
        envOk.getVideo videoId = some video) ∧
      (4 ≤ n → getVideoAspectRatio envOk.probe = .ok geo) ∧
      (∀ v, (handlerUploadVideo envOk reqOk).1 = .ok v → n = 5) :=
  pipeline_stage_order envOk reqOk

/-- C9: in both handler variants, any record handed to the record store's
update operation is exactly the record fetched for the request's video id
with only the `videoURL` field changed — identity, owning user, thumbnail URL
and the remaining fields are untouched. -/
theorem update_frame_condition (env : Env) (req : UploadRequest)
    (r : VideoRecord)
    (h : Event.dbUpdated r ∈ (handlerUploadVideo env req).2 ∨
      Event.dbUpdated r ∈ (handlerUploadVideoRandom env req).2) :
    ∃ videoId video, req.videoId = some videoId ∧
      env.getVideo videoId = some video ∧
      r.id = video.id ∧ r.userID = video.userID ∧
      r.thumbnailURL = video.thumbnailURL ∧ r.title = video.title ∧
      ∃ url, r = { video with videoURL := some url } := by
  rcases h with h | h
  · rcases hE : handlerUploadVideo env req with ⟨res, tr⟩
    simp only [hE] at h
    rcases handler_shape env req res tr hE with ⟨rfl, -⟩ |
      ⟨vid, video, geo, n, hvid, hgv, h1, h7, h6, rfl, hprobe, hup, hok⟩
    · simp at h
    · obtain ⟨h5, rfl⟩ := mem_dbUpdated_full h7 h
      exact ⟨vid, video, hvid, hgv, rfl, rfl, rfl, rfl,
        publicUrl env.s3Bucket env.s3Region (pipeKey geo vid), rfl⟩
  · rcases hER : handlerUploadVideoRandom env req with ⟨resR, trR⟩
    simp only [hER] at h
    rcases handlerRandom_shape env req resR trR hER with ⟨rfl, -⟩ |
      ⟨vid, video, n, hvid, hgv, h1, h4, rfl, hup, hok⟩
    · simp at h
    · obtain ⟨h3, rfl⟩ := mem_dbUpdated_fullRandom h4 h
      exact ⟨vid, video, hvid, hgv, rfl, rfl, rfl, rfl,
        publicUrl env.s3Bucket env.s3Region (base64url env.randBytes ++ ".mp4"),
        rfl⟩

/-- Witness for C9: the committed record of the all-success run differs from
the fetched record `recV` only in its playback URL. -/
theorem update_frame_condition_witness :
    (Event.dbUpdated recCommitted ∈ (handlerUploadVideo envOk reqOk).2 ∨
      Event.dbUpdated recCommitted ∈ (handlerUploadVideoRandom envOk reqOk).2) ∧
    ∃ videoId video, reqOk.videoId = some videoId ∧
      envOk.getVideo videoId = some video ∧
      recCommitted.id = video.id ∧ recCommitted.userID = video.userID ∧
      recCommitted.thumbnailURL = video.thumbnailURL ∧
      recCommitted.title = video.title ∧
      ∃ url, recCommitted = { video with videoURL := some url } :=
  ⟨Or.inl (by rw [handlerOk_eval]; decide),
    update_frame_condition envOk reqOk recCommitted
      (Or.inl (by rw [handlerOk_eval]; decide))⟩

/-- C8: the derived storage key follows the active policy. In the
orientation-prefixed variant every upload call uses the key
`<geometry>/<videoId>.mp4` for the probe's classification; in the
random-opaque variant every upload call uses the url-safe base64 encoding of
the 32 random bytes followed by the extension mapped from the declared media
type, and that mapping sends `video/mp4` to `.mp4`. -/
theorem storage_key_policy (env : Env) (req : UploadRequest)
    (videoId key path : String) (hvid : req.videoId = some videoId) :
    (Event.uploadCalled key path ∈ (handlerUploadVideo env req).2 →
      ∃ geo, getVideoAspectRatio env.probe = .ok geo ∧
        key = geo.toStr ++ "/" ++ videoId ++ ".mp4") ∧
    (Event.uploadCalled key path ∈ (handlerUploadVideoRandom env req).2 →
      key = base64url env.randBytes ++ ".mp4") ∧
    mediaTypeToExt "video/mp4" = .ok ".mp4" := by
  refine ⟨?_, ?_, rfl⟩
  · intro h
    rcases hE : handlerUploadVideo env req with ⟨res, tr⟩
    simp only [hE] at h
    rcases handler_shape env req res tr hE with ⟨rfl, -⟩ |
      ⟨vid, video, geo, n, hvid2, hgv, h1, h7, h6, rfl, hprobe, hup, hok⟩
    · simp at h
    · obtain ⟨h4, rfl, rfl⟩ := mem_uploadCalled_full h7 h
      obtain rfl : vid = videoId := by
        rw [hvid] at hvid2
        injection hvid2 with hh
        exact hh.symm
      exact ⟨geo, hprobe h4, rfl⟩
  · intro h
    rcases hER : handlerUploadVideoRandom env req with ⟨resR, trR⟩
    simp only [hER] at h
    rcases handlerRandom_shape env req resR trR hER with ⟨rfl, -⟩ |
      ⟨vid, video, n, hvid2, hgv, h1, h4, rfl, hup, hok⟩
    · simp at h
    · obtain ⟨h2, rfl, rfl⟩ := mem_uploadCalled_fullRandom h4 h
      rfl

/-- Witness for C8: the upload call of the all-success pipeline run uses the
orientation-prefixed key `landscape/v1.mp4`. -/
theorem storage_key_policy_witness :
    reqOk.videoId = some "v1" ∧
    Event.uploadCalled "landscape/v1.mp4" "/tmp/v1.processed.mp4" ∈
      (handlerUploadVideo envOk reqOk).2 ∧
    ∃ geo, getVideoAspectRatio envOk.probe = .ok geo ∧
      "landscape/v1.mp4" = geo.toStr ++ "/" ++ "v1" ++ ".mp4" :=
  ⟨rfl, by rw [handlerOk_eval]; decide,
    (storage_key_policy envOk reqOk "v1" "landscape/v1.mp4"
      "/tmp/v1.processed.mp4" rfl).1 (by rw [handlerOk_eval]; decide)⟩

/-- C5: in both handler variants, a request by an authenticated non-owner
fails with Forbidden, and an owner request whose declared media type is not
exactly `video/mp4` fails with BadRequest — in both cases with an empty
effect trace, i.e. before any temp file is created, with no probe invocation
and no record-store mutation. -/
theorem reject_before_staging (env : Env) (req : UploadRequest)
    (videoId userID : String) (video : VideoRecord)
    (h1 : req.videoId = some videoId)
    (h2 : env.validateJWT req.token = some userID)
    (h3 : env.getVideo videoId = some video) :
    (video.userID ≠ userID →
      handlerUploadVideo env req =
        (.error (.forbidden "Forbidden access to the video"), []) ∧
      handlerUploadVideoRandom env req =
        (.error (.forbidden "Forbidden access to the video"), [])) ∧
    (∀ f : VideoFile, req.videoFile = some f → video.userID = userID →
      ¬ f.size > MAX_UPLOAD_SIZE → f.mediaType ≠ "video/mp4" →
      handlerUploadVideo env req =
        (.error (.badRequest "Invalid file type. Only MP4 allowed."), []) ∧
      handlerUploadVideoRandom env req =
        (.error (.badRequest "Invalid file type. Only MP4 allowed."), [])) := by
  constructor
  · intro hno
    constructor <;>
      simp [handlerUploadVideo, handlerUploadVideoRandom, h1, h2, h3, hno]
  · intro f hf hown hsize hmt
    constructor <;>
      simp [handlerUploadVideo, handlerUploadVideoRandom, h1, h2, h3, hf,
        hown, hsize, hmt]

/-- Witness for C5: user `u2`'s request for `u1`'s video `v1` is rejected
with Forbidden and an empty trace in both variants. -/
theorem reject_before_staging_witness :
    reqOk.videoId = some "v1" ∧
    envOther.validateJWT reqOk.token = some "u2" ∧
    envOther.getVideo "v1" = some recV ∧
    recV.userID ≠ "u2" ∧
    (handlerUploadVideo envOther reqOk =
      (.error (.forbidden "Forbidden access to the video"), []) ∧
    handlerUploadVideoRandom envOther reqOk =
      (.error (.forbidden "Forbidden access to the video"), [])) :=
  ⟨rfl, by decide, by decide, by decide,
    (reject_before_staging envOther reqOk "v1" "u2" recV rfl (by decide)
      (by decide)).1 (by decide)⟩

/-- C6: in both handler variants (given an authenticated owner request for an
existing record), a video file of exactly 1 GiB = 2^30 bytes passes the size
check and reaches the staging write, while a file of exactly 1 GiB + 1 byte
is rejected with BadRequest and an empty effect trace — before any staging
write occurs. -/
theorem size_cap_boundary (env : Env) (videoId token userID : String)
    (video : VideoRecord) (f : VideoFile)
    (h1 : env.validateJWT token = some userID)
    (h2 : env.getVideo videoId = some video)
    (h3 : video.userID = userID) :
    (f.size = 2 ^ 30 → f.mediaType = "video/mp4" →
      Event.staged (tempFilePathFor videoId) ∈
        (handlerUploadVideo env ⟨some videoId, token, some f⟩).2 ∧
      Event.staged (tempFilePathFor videoId) ∈
        (handlerUploadVideoRandom env ⟨some videoId, token, some f⟩).2) ∧
    (f.size = 2 ^ 30 + 1 →
      handlerUploadVideo env ⟨some videoId, token, some f⟩ =
        (.error (.badRequest
          "Video file exceeds the maximum allowed size of 1GB"), []) ∧
      handlerUploadVideoRandom env ⟨some videoId, token, some f⟩ =
        (.error (.badRequest
          "Video file exceeds the maximum allowed size of 1GB"), [])) := by
  constructor
  · intro hs hm
    have hsle : ¬ f.size > MAX_UPLOAD_SIZE := by
      simp [hs, MAX_UPLOAD_SIZE]
    constructor
    · simp [handlerUploadVideo, h1, h2, h3, hsle, hm]
      cases hw : env.writeOk <;> simp [hw]
      rcases hpr : getVideoAspectRatio env.probe with e | geo <;> simp [hpr]
      rcases hff : processVideoForFastStart (tempFilePathFor videoId)
          env.ffmpegExit env.ffmpegStderr with e | out <;> simp [hff]
      cases hu : env.uploadOk <;> simp [hu]
      cases hupd : env.updateOk <;> simp [hupd]
    · simp [handlerUploadVideoRandom, h1, h2, h3, hsle, hm, mediaTypeToExt]
      cases hw : env.writeOk <;> simp [hw]
      cases hu : env.uploadOk <;> simp [hu]
      cases hupd : env.updateOk <;> simp [hupd]
  · intro hs
    have hsgt : f.size > MAX_UPLOAD_SIZE := by
      simp [hs, MAX_UPLOAD_SIZE]
    constructor <;>
      simp [handlerUploadVideo, handlerUploadVideoRandom, h1, h2, h3, hsgt]

/-- Witness for C6: on the all-success environment, a 2^30-byte `video/mp4`
file reaches the staging write in both variants. -/
theorem size_cap_boundary_witness :
    envOk.validateJWT "tok" = some "u1" ∧
    envOk.getVideo "v1" = some recV ∧
    recV.userID = "u1" ∧
    (Event.staged (tempFilePathFor "v1") ∈
      (handlerUploadVideo envOk ⟨some "v1", "tok",
        some ⟨2 ^ 30, "video/mp4"⟩⟩).2 ∧
    Event.staged (tempFilePathFor "v1") ∈
      (handlerUploadVideoRandom envOk ⟨some "v1", "tok",
        some ⟨2 ^ 30, "video/mp4"⟩⟩).2) :=
  ⟨by decide, by decide, rfl,
    (size_cap_boundary envOk "v1" "tok" "u1" recV ⟨2 ^ 30, "video/mp4"⟩
      (by decide) (by decide) rfl).1 rfl rfl⟩

/-- C2: for nonzero height, the classification equals the spec's rule —
landscape iff `|width/height - 16/9| < 0.1`, else portrait iff
`|width/height - 9/16| < 0.1`, else other — with strict comparisons: the
ratio 169/90, exactly 0.1 above 16/9, classifies as other. -/
theorem classify_matches_spec_rule :
    (∀ w h : ℚ, h ≠ 0 →
      (classifyDims w h = .landscape ↔ |w / h - 16/9| < 1/10) ∧
      (classifyDims w h = .portrait ↔
        ¬ |w / h - 16/9| < 1/10 ∧ |w / h - 9/16| < 1/10) ∧
      (classifyDims w h = .other ↔
        ¬ |w / h - 16/9| < 1/10 ∧ ¬ |w / h - 9/16| < 1/10)) ∧
    (169 / 90 : ℚ) - 16 / 9 = 1 / 10 ∧
    classifyDims 169 90 = .other := by
  refine ⟨?_, by norm_num, ?_⟩
  · intro w h hh
    simp only [classifyDims, ratioChecked, if_neg hh]
    unfold classifyRatio
    split_ifs with hl hp <;> simp_all
  · unfold classifyDims ratioChecked classifyRatio
    norm_num
    rw [if_neg (by rw [abs_of_nonneg (by norm_num)]; norm_num),
      if_neg (by rw [abs_of_nonneg (by norm_num)]; norm_num)]

/-- Witness for C2: 1920×1080 has nonzero height and classifies as landscape
exactly when its ratio is within 0.1 of 16/9. -/
theorem classify_matches_spec_rule_witness :
    ((1080 : ℚ) ≠ 0) ∧
    (classifyDims 1920 1080 = .landscape ↔
      |(1920 : ℚ) / 1080 - 16/9| < 1/10) :=
  ⟨by norm_num, (classify_matches_spec_rule.1 1920 1080 (by norm_num)).1⟩

/-- C10: once the probe has exited 0 and reports a first stream with numeric
width and height, classification is total — `getVideoAspectRatio` returns
`ok` of the classification, never an error; at height 0 the guarded division
hits its error branch (`none`, the source's non-finite double) but the
classification still returns `other` because both tolerance comparisons
fail. -/
theorem classification_total_on_degenerate (probe : ProbeOutput) (w h : ℚ)
    (rest : List (ℚ × ℚ)) (h0 : probe.exitCode = 0)
    (hs : probe.streams = (w, h) :: rest) :
    getVideoAspectRatio probe = .ok (classifyDims w h) ∧
    ratioChecked w 0 = none ∧
    classifyDims w 0 = .other := by
  refine ⟨?_, by simp [ratioChecked], by simp [classifyDims, ratioChecked]⟩
  simp [getVideoAspectRatio, h0, hs]

/-- Witness for C10: a probe reporting a 4×0 stream yields `ok other`. -/
theorem classification_total_on_degenerate_witness :
    probeZeroH.exitCode = 0 ∧ probeZeroH.streams = (4, 0) :: [] ∧
    (getVideoAspectRatio probeZeroH = .ok (classifyDims 4 0) ∧
      ratioChecked 4 0 = none ∧ classifyDims 4 0 = .other) :=
  ⟨rfl, rfl, classification_total_on_degenerate probeZeroH 4 0 [] rfl rfl⟩

/-- Evaluation of the pipeline handler when `ffprobe` fails after staging. -/
lemma handlerProbeFail_eval : handlerUploadVideo envProbeFail reqOk =
    (.error (.internal "ffprobe error: boom"),
      [Event.staged "/tmp/v1.mp4", Event.probed "/tmp/v1.mp4"]) := by
  simp [handlerUploadVideo, envProbeFail, envOk, reqOk, recV, MAX_UPLOAD_SIZE,
    getVideoAspectRatio, tempFilePathFor]

/-- C3 fails on the code: the two `rm` calls are issued only on the success
path (there is no try/finally), so on a probe failure after staging the
handler returns with no removal event at all — the staged temp file remains
in `/tmp`. This theorem evaluates the handler at the failing input: the
all-success environment except that `ffprobe` exits 1. -/
theorem cleanup_missing_on_failure :
    (handlerUploadVideo envProbeFail reqOk).1 =
      .error (.internal "ffprobe error: boom") ∧
    (handlerUploadVideo envProbeFail reqOk).2 =
      [Event.staged "/tmp/v1.mp4", Event.probed "/tmp/v1.mp4"] ∧
    ∀ p : String,
      Event.removed p ∉ (handlerUploadVideo envProbeFail reqOk).2 := by
  refine ⟨by rw [handlerProbeFail_eval], by rw [handlerProbeFail_eval], ?_⟩
  intro p
  rw [handlerProbeFail_eval]
  simp

/-- C4 fails on the code in its second half: the rewriter's output path is
the deterministic `<input stem before first dot>.processed.mp4` (first
conjunct, as the claim says), but on the success path the handler removes
`$\x7btempFilePath\x7d.processed.mp4`, which keeps the full `.mp4` suffix of
the temp path and therefore never equals the path the rewriter wrote: for
video `v1` the rewriter writes `/tmp/v1.processed.mp4` while cleanup removes
`/tmp/v1.mp4.processed.mp4`. -/
theorem rewriter_cleanup_path_mismatch :
    (∀ s : String,
      processVideoForFastStart s 0 "" = .ok (fastStartOutputPath s)) ∧
    fastStartOutputPath (tempFilePathFor "v1") = "/tmp/v1.processed.mp4" ∧
    Event.rewritten "/tmp/v1.mp4" "/tmp/v1.processed.mp4" ∈
      (handlerUploadVideo envOk reqOk).2 ∧
    Event.removed "/tmp/v1.mp4.processed.mp4" ∈
      (handlerUploadVideo envOk reqOk).2 ∧
    Event.removed "/tmp/v1.processed.mp4" ∉
      (handlerUploadVideo envOk reqOk).2 ∧
    "/tmp/v1.mp4.processed.mp4" ≠ "/tmp/v1.processed.mp4" := by
  refine ⟨fun s => rfl, by decide, ?_, ?_, ?_, by decide⟩ <;>
    rw [handlerOk_eval] <;> decide

end VideoUpload
